import Mathlib

/-!
Verification of the youtube-automation locale-validation core.

Shallow embedding of:
- `internal/constants` language registry (`LanguageMap`, `IsValidLanguage`, `DefaultLanguage`);
- `internal/publishing/metrics.go` (`Metrics` and its counters, totals, success rates);
- `internal/publishing/errors.go` (`YouTubeError`, `CategorizeError`, `NewLanguageError`);
- `internal/publishing` language handler (`ValidateAndSetLanguage`, `setLanguageSafely`,
  `GetLanguageWithFallback`);
- the storage layer contract (per-item document save/load), whose implementation is not part
  of the provided sources and is therefore modelled from the specification.

Go `error` values are modelled by their message strings (`Option String`, `none` = nil).
Go pointers that the code may receive as nil are modelled as `Option`; a nil-pointer
dereference (runtime panic) is modelled by the whole call evaluating to `none`.
Go `int64` counters are modelled as `Nat` (they start at zero and are only ever incremented
by one, far from overflow); `float64` success rates are modelled as exact rationals, keeping
the zero-denominator guard of the source.
-/

/-! ## String helpers (Go `strings.ToLower`, `strings.Contains`) -/

/-- Go `strings.ToLower`, restricted to the per-character lowering that matters for the
ASCII keywords of the classifier. -/
def strToLower (s : String) : String := String.mk (s.toList.map Char.toLower)

/-- Go `strings.Contains s sub`: `sub` occurs as a contiguous substring of `s`. -/
def strContains (s sub : String) : Bool := decide (sub.toList <:+: s.toList)

/-! ## Locale Registry (`internal/constants`, src/unnamed/part_000 lines 73-92) -/

/-- `constants.DefaultLanguage`. -/
def DefaultLanguage : String := "en"

/-- `constants.LanguageEnglish`. -/
def LanguageEnglish : String := "en"

/-- `constants.LanguageMap`: language code to display name. -/
def LanguageMap : List (String × String) := [(LanguageEnglish, "English")]

/-- `constants.IsValidLanguage`: membership of the code in `LanguageMap`. -/
def IsValidLanguage (code : String) : Bool := (LanguageMap.lookup code).isSome

/-! ## Metrics Collector (`internal/publishing/metrics.go`) -/

/-- `publishing.Metrics`: the six counters. -/
structure Metrics where
  LanguageSetSuccess : Nat := 0
  LanguageSetFailure : Nat := 0
  UploadSuccess : Nat := 0
  UploadFailure : Nat := 0
  LanguageValidation : Nat := 0
  LanguageFallback : Nat := 0
deriving DecidableEq, Repr

/-- `Metrics.IncLanguageSetSuccess`. -/
def Metrics.IncLanguageSetSuccess (m : Metrics) : Metrics :=
  { m with LanguageSetSuccess := m.LanguageSetSuccess + 1 }

/-- `Metrics.IncLanguageSetFailure`. -/
def Metrics.IncLanguageSetFailure (m : Metrics) : Metrics :=
  { m with LanguageSetFailure := m.LanguageSetFailure + 1 }

/-- `Metrics.IncUploadSuccess`. -/
def Metrics.IncUploadSuccess (m : Metrics) : Metrics :=
  { m with UploadSuccess := m.UploadSuccess + 1 }

/-- `Metrics.IncUploadFailure`. -/
def Metrics.IncUploadFailure (m : Metrics) : Metrics :=
  { m with UploadFailure := m.UploadFailure + 1 }

/-- `Metrics.IncLanguageValidation`. -/
def Metrics.IncLanguageValidation (m : Metrics) : Metrics :=
  { m with LanguageValidation := m.LanguageValidation + 1 }

/-- `Metrics.IncLanguageFallback`. -/
def Metrics.IncLanguageFallback (m : Metrics) : Metrics :=
  { m with LanguageFallback := m.LanguageFallback + 1 }

/-- `Metrics.GetLanguageSetSuccess` (atomic load of the counter). -/
def Metrics.GetLanguageSetSuccess (m : Metrics) : Nat := m.LanguageSetSuccess

/-- `Metrics.GetLanguageSetFailure`. -/
def Metrics.GetLanguageSetFailure (m : Metrics) : Nat := m.LanguageSetFailure

/-- `Metrics.GetUploadSuccess`. -/
def Metrics.GetUploadSuccess (m : Metrics) : Nat := m.UploadSuccess

/-- `Metrics.GetUploadFailure`. -/
def Metrics.GetUploadFailure (m : Metrics) : Nat := m.UploadFailure

/-- `Metrics.GetLanguageValidation`. -/
def Metrics.GetLanguageValidation (m : Metrics) : Nat := m.LanguageValidation

/-- `Metrics.GetLanguageFallback`. -/
def Metrics.GetLanguageFallback (m : Metrics) : Nat := m.LanguageFallback

/-- `Metrics.GetLanguageSetTotal`: success + failure. -/
def Metrics.GetLanguageSetTotal (m : Metrics) : Nat :=
  m.GetLanguageSetSuccess + m.GetLanguageSetFailure

/-- `Metrics.GetUploadTotal`: success + failure. -/
def Metrics.GetUploadTotal (m : Metrics) : Nat :=
  m.GetUploadSuccess + m.GetUploadFailure

/-- `Metrics.GetLanguageSetSuccessRate`: success / total, `0` when the total is zero.
Go `float64` division is modelled as exact rational division. -/
def Metrics.GetLanguageSetSuccessRate (m : Metrics) : ℚ :=
  if m.GetLanguageSetTotal = 0 then 0
  else (m.GetLanguageSetSuccess : ℚ) / (m.GetLanguageSetTotal : ℚ)

/-- `Metrics.GetUploadSuccessRate`: success / total, `0` when the total is zero. -/
def Metrics.GetUploadSuccessRate (m : Metrics) : ℚ :=
  if m.GetUploadTotal = 0 then 0
  else (m.GetUploadSuccess : ℚ) / (m.GetUploadTotal : ℚ)

/-- `Metrics.Reset`: zero all six counters. -/
def Metrics.Reset (_m : Metrics) : Metrics := {}

/-! ## Error Classifier (`internal/publishing/errors.go`) -/

/-- `publishing.ErrorType` is a string type in the source. -/
abbrev ErrorType := String

/-- `publishing.ErrorTypeAuth`. -/
def ErrorTypeAuth : ErrorType := "auth"

/-- `publishing.ErrorTypeRateLimit`. -/
def ErrorTypeRateLimit : ErrorType := "rate_limit"

/-- `publishing.ErrorTypeNetwork`. -/
def ErrorTypeNetwork : ErrorType := "network"

/-- `publishing.ErrorTypeInvalid`. -/
def ErrorTypeInvalid : ErrorType := "invalid_request"

/-- `publishing.ErrorTypeServer`. -/
def ErrorTypeServer : ErrorType := "server_error"

/-- `publishing.ErrorTypeLanguage`. -/
def ErrorTypeLanguage : ErrorType := "language_error"

/-- `publishing.ErrorTypeUpload`. -/
def ErrorTypeUpload : ErrorType := "upload_error"

/-- `publishing.ErrorTypeUnknown`. -/
def ErrorTypeUnknown : ErrorType := "unknown"

/-- `publishing.ErrorTypeInternal`. -/
def ErrorTypeInternal : ErrorType := "internal"

/-- `publishing.YouTubeError`. The Go field `Type` is a Lean keyword, so it is named
`type` here; `OriginalError` is the wrapped cause, modelled by its message string. -/
structure YouTubeError where
  type : ErrorType
  Message : String
  Retryable : Bool
  OriginalError : Option String := none
  VideoID : String := ""
  Language : String := ""
deriving DecidableEq, Repr

/-- `YouTubeError.Error`: the `error` interface implementation (errors.go lines 36-41). -/
def YouTubeError.Error (e : YouTubeError) : String :=
  match e.OriginalError with
  | some orig =>
      "YouTube error [" ++ e.type ++ "]: " ++ e.Message ++ " (original: " ++ orig ++ ")"
  | none => "YouTube error [" ++ e.type ++ "]: " ++ e.Message

/-- `publishing.CategorizeError` (errors.go lines 51-117): nil in, nil out; otherwise an
ordered first-match keyword switch over the lowercased message. -/
def CategorizeError (err : Option String) : Option YouTubeError :=
  match err with
  | none => none
  | some e =>
    let errStr := strToLower e
    if strContains errStr "authentication" || strContains errStr "unauthorized" then
      some { type := ErrorTypeAuth,
             Message := "Authentication failed or insufficient permissions",
             Retryable := false, OriginalError := some e }
    else if strContains errStr "rate limit" || strContains errStr "quota" then
      some { type := ErrorTypeRateLimit,
             Message := "Rate limit exceeded or quota exceeded",
             Retryable := true, OriginalError := some e }
    else if strContains errStr "network" || strContains errStr "timeout" ||
        strContains errStr "connection" then
      some { type := ErrorTypeNetwork,
             Message := "Network connectivity issue",
             Retryable := true, OriginalError := some e }
    else if strContains errStr "invalid" || strContains errStr "bad request" then
      some { type := ErrorTypeInvalid,
             Message := "Invalid request or malformed data",
             Retryable := false, OriginalError := some e }
    else if strContains errStr "server error" || strContains errStr "internal server" then
      some { type := ErrorTypeServer,
             Message := "YouTube server error",
             Retryable := true, OriginalError := some e }
    else if strContains errStr "language" || strContains errStr "locale" then
      some { type := ErrorTypeLanguage,
             Message := "Language setting error",
             Retryable := false, OriginalError := some e }
    else if strContains errStr "upload" || strContains errStr "video" then
      some { type := ErrorTypeUpload,
             Message := "Video upload error",
             Retryable := true, OriginalError := some e }
    else
      some { type := ErrorTypeUnknown,
             Message := "Unknown error occurred",
             Retryable := false, OriginalError := some e }

/-- `publishing.NewLanguageError` (errors.go lines 120-128). -/
def NewLanguageError (language : String) (originalErr : Option String) : YouTubeError :=
  { type := ErrorTypeLanguage,
    Message := "Failed to set language to \x27" ++ language ++ "\x27",
    Retryable := false,
    OriginalError := originalErr,
    Language := language }

/-- `publishing.NewUploadError` (errors.go lines 131-139). -/
def NewUploadError (videoID : String) (originalErr : Option String) : YouTubeError :=
  { type := ErrorTypeUpload,
    Message := "Video upload failed",
    Retryable := true,
    OriginalError := originalErr,
    VideoID := videoID }

/-- The specification's classification table (§4.3), written exactly as the spec lists it:
an ordered list of (keywords, kind, retryable) rules, first match wins. -/
def specRules : List (List String × ErrorType × Bool) :=
  [ (["authentication", "unauthorized"], ErrorTypeAuth, false),
    (["rate limit", "quota"], ErrorTypeRateLimit, true),
    (["network", "timeout", "connection"], ErrorTypeNetwork, true),
    (["invalid", "bad request"], ErrorTypeInvalid, false),
    (["server error", "internal server"], ErrorTypeServer, true),
    (["language", "locale"], ErrorTypeLanguage, false),
    (["upload", "video"], ErrorTypeUpload, true) ]

/-- The specification's classifier outcome: the (kind, retryable) pair of the first rule
whose keyword list matches the lowercased message, `(unknown, false)` when none matches. -/
def classifyByTable (msg : String) : ErrorType × Bool :=
  let low := strToLower msg
  match specRules.find? (fun r => r.1.any (fun k => strContains low k)) with
  | some r => (r.2.1, r.2.2)
  | none => (ErrorTypeUnknown, false)

/-! ## Data model (`storage.Video`)

The storage package implementation is not among the provided sources (only its tests and
callers are), so the struct shape and the two accessor methods are modelled from the
specification (§3, §4.2 step 1), cross-checked against the storage tests. -/

/-- Modelled from the spec: `storage.Sponsorship`, the nested value object of §3
(amount, contact emails, blocked-reason). -/
structure Sponsorship where
  Amount : String := ""
  Emails : String := ""
  Blocked : String := ""
deriving DecidableEq, Repr

/-- Modelled from the spec: `storage.Video`, the central entity of §3 with the fields the
claims exercise: identity, free-form metadata, the nested sponsorship record, and the two
locale pairs (requested and applied). -/
structure Video where
  Name : String := ""
  Category : String := ""
  Path : String := ""
  ProjectName : String := ""
  ProjectURL : String := ""
  Sponsorship : Sponsorship := {}
  Title : String := ""
  Description : String := ""
  Tags : String := ""
  Tweet : String := ""
  Language : String := ""
  AudioLanguage : String := ""
  AppliedLanguage : String := ""
  AppliedAudioLanguage : String := ""
deriving DecidableEq, Repr

/-- Modelled from the spec: `storage.Video.GetLanguage` — the item's locale field when
non-empty, else the supplied default (§4.2 step 1; storage tests part_000 lines 516-567). -/
def Video.GetLanguage (v : Video) (defaultLang : String) : String :=
  if v.Language = "" then defaultLang else v.Language

/-- Modelled from the spec: `storage.Video.GetAudioLanguage` — the item's audio locale
field when non-empty, else the supplied default (§4.2 step 1; tests lines 569-621). -/
def Video.GetAudioLanguage (v : Video) (defaultLang : String) : String :=
  if v.AudioLanguage = "" then defaultLang else v.AudioLanguage

/-! ## Outbound record (`youtube.Video` of the YouTube API client) -/

/-- `youtube.VideoSnippet`, restricted to the two fields the pipeline touches; the Go zero
value of both fields is the empty string. -/
structure VideoSnippet where
  DefaultLanguage : String := ""
  DefaultAudioLanguage : String := ""
deriving DecidableEq, Repr

/-- `youtube.Video`, restricted to the snippet container; `Snippet` is a pointer in Go,
hence `Option` (with `none` for nil). -/
structure YouTubeVideo where
  Snippet : Option VideoSnippet := none
deriving DecidableEq, Repr

/-! ## Locale Validation Pipeline (`internal/publishing`, src/unnamed/part_001) -/

/-- `publishing.setLanguageSafely` (part_001 lines 63-78): fails (with a language error)
when the outbound record pointer is nil; otherwise creates the snippet when absent and
sets both locale fields. Returns the updated record and the returned error. -/
def setLanguageSafely (youtubeVideo : Option YouTubeVideo) (language audioLanguage : String) :
    Option YouTubeVideo × Option YouTubeError :=
  match youtubeVideo with
  | none => (none, some (NewLanguageError language none))
  | some v =>
      let snippet := v.Snippet.getD {}
      (some { v with
                Snippet := some { snippet with
                                    DefaultLanguage := language,
                                    DefaultAudioLanguage := audioLanguage } },
       none)

/-- The observable outcome of one `ValidateAndSetLanguage` call: the outbound record, the
item (whose applied-locale fields the call writes), the metrics state, and the returned
`error` value. -/
structure SetLanguageOutcome where
  youtubeVideo : Option YouTubeVideo
  video : Video
  metrics : Metrics
  err : Option YouTubeError
deriving DecidableEq, Repr

/-- `publishing.ValidateAndSetLanguage` (part_001 lines 11-59). The `video` parameter is a
Go pointer that the function dereferences unconditionally (`video.GetLanguage` at entry and
`video.AppliedLanguage = language` at line 55), so a nil item is a runtime panic, modelled
as the whole call evaluating to `none`. -/
def ValidateAndSetLanguage (youtubeVideo : Option YouTubeVideo) (video : Option Video)
    (defaultLanguage : String) (m : Metrics) : Option SetLanguageOutcome :=
  match video with
  | none => none
  | some v =>
    let language := v.GetLanguage defaultLanguage
    let audioLanguage := v.GetAudioLanguage defaultLanguage
    let m := m.IncLanguageValidation
    let fb1 := !IsValidLanguage language
    let m := if fb1 then m.IncLanguageFallback else m
    let language := if fb1 then defaultLanguage else language
    let fb2 := !IsValidLanguage audioLanguage
    let m := if fb2 then m.IncLanguageFallback else m
    let audioLanguage := if fb2 then defaultLanguage else audioLanguage
    let s1 := setLanguageSafely youtubeVideo language audioLanguage
    let final :=
      match s1.2 with
      | some _ =>
        let m1 := m.IncLanguageSetFailure
        let s2 := setLanguageSafely s1.1 defaultLanguage defaultLanguage
        match s2.2 with
        | some _ => (s2.1, m1.IncLanguageSetFailure)
        | none => (s2.1, m1.IncLanguageSetSuccess)
      | none => (s1.1, m.IncLanguageSetSuccess)
    some { youtubeVideo := final.1,
           video := { v with AppliedLanguage := language,
                             AppliedAudioLanguage := audioLanguage },
           metrics := final.2,
           err := none }

/-- `publishing.ValidateLanguageCode` (part_001 lines 81-86). -/
def ValidateLanguageCode (language : String) : Option YouTubeError :=
  if !IsValidLanguage language then some (NewLanguageError language none) else none

/-- `publishing.GetLanguageWithFallback` (part_001 lines 89-107): the pure variant.
It resolves the two locales with per-field fallback and increments only the fallback
counter (the source contains no `IncLanguageValidation` call). -/
def GetLanguageWithFallback (video : Video) (defaultLanguage : String) (m : Metrics) :
    (String × String) × Metrics :=
  let language := video.GetLanguage defaultLanguage
  let audioLanguage := video.GetAudioLanguage defaultLanguage
  let fb1 := !IsValidLanguage language
  let m := if fb1 then m.IncLanguageFallback else m
  let language := if fb1 then defaultLanguage else language
  let fb2 := !IsValidLanguage audioLanguage
  let m := if fb2 then m.IncLanguageFallback else m
  let audioLanguage := if fb2 then defaultLanguage else audioLanguage
  ((language, audioLanguage), m)

/-! ## Theorems -/

/-- Claim C10: the Locale Registry accepts exactly one code: `IsValidLanguage c` holds
iff `c = "en"`, and the `DefaultLanguage` constant is `"en"`. -/
theorem isValidLanguage_only_en :
    DefaultLanguage = "en" ∧ ∀ c : String, IsValidLanguage c = true ↔ c = "en" := by
  refine ⟨rfl, fun c => ?_⟩
  constructor
  · intro h
    by_cases hc : c = "en"
    · exact hc
    · have hb : (c == "en") = false := beq_eq_false_iff_ne.mpr hc
      simp [IsValidLanguage, LanguageMap, LanguageEnglish, List.lookup, hb] at h
  · intro h
    subst h
    rfl

/-- Claim C8: for every metrics state, each total equals the corresponding success plus
failure, each success rate is success divided by its total, and a zero total gives a rate
of exactly zero. -/
theorem metrics_totals_and_rates (m : Metrics) :
    m.GetLanguageSetTotal = m.GetLanguageSetSuccess + m.GetLanguageSetFailure ∧
    m.GetUploadTotal = m.GetUploadSuccess + m.GetUploadFailure ∧
    (m.GetLanguageSetTotal = 0 → m.GetLanguageSetSuccessRate = 0) ∧
    (m.GetLanguageSetTotal ≠ 0 →
      m.GetLanguageSetSuccessRate =
        (m.GetLanguageSetSuccess : ℚ) / (m.GetLanguageSetTotal : ℚ)) ∧
    (m.GetUploadTotal = 0 → m.GetUploadSuccessRate = 0) ∧
    (m.GetUploadTotal ≠ 0 →
      m.GetUploadSuccessRate = (m.GetUploadSuccess : ℚ) / (m.GetUploadTotal : ℚ)) := by
  refine ⟨rfl, rfl, ?_, ?_, ?_, ?_⟩ <;> intro h <;>
    simp [Metrics.GetLanguageSetSuccessRate, Metrics.GetUploadSuccessRate, h]

/-- Witness for claim C8, at the concrete metrics state with 2 locale-set successes,
1 locale-set failure, 3 upload successes, 1 upload failure, and at the zero state. -/
theorem metrics_totals_and_rates_witness :
    Metrics.GetLanguageSetSuccessRate ⟨2, 1, 3, 1, 0, 0⟩ = 2 / 3 ∧
    Metrics.GetUploadSuccessRate {} = 0 := by
  have h1 := (metrics_totals_and_rates ⟨2, 1, 3, 1, 0, 0⟩).2.2.2.1 (by decide)
  have h2 := (metrics_totals_and_rates {}).2.2.2.2.1 rfl
  refine ⟨?_, h2⟩
  rw [h1]
  norm_num [Metrics.GetLanguageSetSuccess, Metrics.GetLanguageSetTotal,
    Metrics.GetLanguageSetFailure]

/-- Claim C6: a classified error's string form is exactly
`YouTube error [<kind>]: <message> (original: <cause>)` when a cause is present, and the
same without the parenthetical when absent. -/
theorem youTubeError_string_format :
    (∀ (e : YouTubeError) (c : String), e.OriginalError = some c →
      e.Error = "YouTube error [" ++ e.type ++ "]: " ++ e.Message ++
        " (original: " ++ c ++ ")") ∧
    (∀ e : YouTubeError, e.OriginalError = none →
      e.Error = "YouTube error [" ++ e.type ++ "]: " ++ e.Message) := by
  constructor
  · intro e c h
    simp [YouTubeError.Error, h]
  · intro e h
    simp [YouTubeError.Error, h]

/-- Witness for claim C6, at the two concrete errors of the repository's own test
(`TestYouTubeError_Error`). -/
theorem youTubeError_string_format_witness :
    YouTubeError.Error
        { type := ErrorTypeAuth, Message := "Authentication failed",
          Retryable := false, OriginalError := some "original error" } =
      "YouTube error [auth]: Authentication failed (original: original error)" ∧
    YouTubeError.Error
        { type := ErrorTypeLanguage, Message := "Language setting failed",
          Retryable := false } =
      "YouTube error [language_error]: Language setting failed" := by
  constructor
  · exact (youTubeError_string_format.1 _ "original error" rfl).trans rfl
  · exact (youTubeError_string_format.2 _ rfl).trans rfl

/-- Claim C4: on the concrete scenario `Language="invalid"`, `AudioLanguage=""`, default
`"en"`, a non-nil outbound record: both applied locales are `"en"`, the fallback counter
rises by exactly 1, the locale-set success counter by 1, the failure counter stays 0, the
validations counter rises by exactly 1, and the call returns no error. -/
theorem concrete_scenario_invalid_and_empty :
    ∃ r, ValidateAndSetLanguage (some { Snippet := some {} })
        (some { Language := "invalid", AudioLanguage := "" }) "en" {} = some r ∧
      r.video.AppliedLanguage = "en" ∧ r.video.AppliedAudioLanguage = "en" ∧
      r.metrics.LanguageFallback = 1 ∧ r.metrics.LanguageSetSuccess = 1 ∧
      r.metrics.LanguageSetFailure = 0 ∧ r.metrics.LanguageValidation = 1 ∧
      r.err = none := by
  exact ⟨_, rfl, by decide, by decide, by decide, by decide, by decide, by decide,
    by decide⟩

/-- Claim C1 (code bug): an empty item with a nil outbound record, and invalid locale
codes with an invalid default, both return a nil error; but a nil item makes
`ValidateAndSetLanguage` dereference the nil pointer (`video.GetLanguage` at entry,
`video.AppliedLanguage = language` at part_001 line 55) and panic, modelled as `none`. -/
theorem validateAndSetLanguage_nil_item_panics :
    ValidateAndSetLanguage (some { Snippet := some {} }) none "en" {} = none ∧
    (ValidateAndSetLanguage none (some {}) "en" {}).map SetLanguageOutcome.err =
      some none ∧
    (ValidateAndSetLanguage (some { Snippet := some {} })
        (some { Language := "bogus", AudioLanguage := "zz" }) "xx" {}).map
      SetLanguageOutcome.err = some none := by
  refine ⟨rfl, by decide, by decide⟩

/-- Counterexample to claim C2: with an empty item and the invalid default `"fr"`, the
call sets `AppliedLanguage` and `AppliedAudioLanguage` to `"fr"`, which is non-empty but
outside the Locale Registry. -/
theorem appliedLanguage_not_always_registry_valid :
    (ValidateAndSetLanguage (some { Snippet := some {} }) (some {}) "fr" {}).map
        (fun r => (r.video.AppliedLanguage, r.video.AppliedAudioLanguage)) =
      some ("fr", "fr") ∧
    IsValidLanguage "fr" = false ∧ ("fr" : String) ≠ "" := by
  decide

/-- Amended claim C2: after every invocation on a non-nil item, each applied-locale field
holds either a code that passed Locale Registry validation or the supplied default locale
(which may itself be empty or invalid). -/
theorem appliedLanguage_valid_or_default (yt : Option YouTubeVideo) (v : Video)
    (d : String) (m : Metrics) :
    ∃ r, ValidateAndSetLanguage yt (some v) d m = some r ∧
      (IsValidLanguage r.video.AppliedLanguage = true ∨ r.video.AppliedLanguage = d) ∧
      (IsValidLanguage r.video.AppliedAudioLanguage = true ∨
        r.video.AppliedAudioLanguage = d) := by
  refine ⟨_, rfl, ?_, ?_⟩
  · dsimp only
    cases h1 : IsValidLanguage (v.GetLanguage d) <;> simp [h1]
  · dsimp only
    cases h2 : IsValidLanguage (v.GetAudioLanguage d) <;> simp [h2]

/-- Claim C3: whenever a requested locale is empty or outside the Locale Registry, the
corresponding applied locale equals the supplied default (no re-validation of the
default), and one call raises the fallback counter by exactly the number of invalid
fields, which is at most two. -/
theorem fallback_totality (yt : Option YouTubeVideo) (v : Video) (d : String)
    (m : Metrics) :
    ∃ r, ValidateAndSetLanguage yt (some v) d m = some r ∧
      (IsValidLanguage (v.GetLanguage d) = false → r.video.AppliedLanguage = d) ∧
      (IsValidLanguage (v.GetAudioLanguage d) = false →
        r.video.AppliedAudioLanguage = d) ∧
      r.metrics.LanguageFallback = m.LanguageFallback +
        ((if IsValidLanguage (v.GetLanguage d) then 0 else 1) +
          (if IsValidLanguage (v.GetAudioLanguage d) then 0 else 1)) ∧
      (if IsValidLanguage (v.GetLanguage d) then 0 else 1) +
          (if IsValidLanguage (v.GetAudioLanguage d) then (0 : Nat) else 1) ≤ 2 := by
  refine ⟨_, rfl, ?_, ?_, ?_, ?_⟩
  · intro h1
    dsimp only
    simp [h1]
  · intro h2
    dsimp only
    simp [h2]
  · cases yt with
    | none =>
        cases h1 : IsValidLanguage (v.GetLanguage d) <;>
          cases h2 : IsValidLanguage (v.GetAudioLanguage d) <;>
            simp [setLanguageSafely, h1, h2, Metrics.IncLanguageFallback,
              Metrics.IncLanguageValidation, Metrics.IncLanguageSetFailure,
              Metrics.IncLanguageSetSuccess]
    | some w =>
        cases h1 : IsValidLanguage (v.GetLanguage d) <;>
          cases h2 : IsValidLanguage (v.GetAudioLanguage d) <;>
            simp [setLanguageSafely, h1, h2, Metrics.IncLanguageFallback,
              Metrics.IncLanguageValidation, Metrics.IncLanguageSetFailure,
              Metrics.IncLanguageSetSuccess]
  · cases h1 : IsValidLanguage (v.GetLanguage d) <;>
      cases h2 : IsValidLanguage (v.GetAudioLanguage d) <;> simp [h1, h2]

/-- Witness for claim C3: both requested locales invalid (`"xx"`, `"yy"`), default
`"en"`: both applied fields become `"en"` and the fallback counter rises by 2. -/
theorem fallback_totality_witness :
    ∃ r, ValidateAndSetLanguage (some { Snippet := some {} })
        (some { Language := "xx", AudioLanguage := "yy" }) "en" {} = some r ∧
      r.video.AppliedLanguage = "en" ∧ r.video.AppliedAudioLanguage = "en" ∧
      r.metrics.LanguageFallback = 2 := by
  obtain ⟨r, hr, h1, h2, h3, _⟩ :=
    fallback_totality (some { Snippet := some {} })
      { Language := "xx", AudioLanguage := "yy" } "en" {}
  refine ⟨r, hr, h1 (by decide), h2 (by decide), ?_⟩
  rw [h3]
  decide

/-- Counterexample to claim C7: `GetLanguageWithFallback` does not perform the step-2
bookkeeping — on an input where the claim requires the validations-performed counter to
rise to 1 it stays 0, while `ValidateAndSetLanguage` does raise it to 1. -/
theorem getLanguageWithFallback_skips_validation_counter :
    (GetLanguageWithFallback { Language := "en", AudioLanguage := "en" } "en"
        {}).2.LanguageValidation = 0 ∧
    (ValidateAndSetLanguage (some { Snippet := some {} })
        (some { Language := "en", AudioLanguage := "en" }) "en" {}).map
      (fun r => r.metrics.LanguageValidation) = some 1 := by
  refine ⟨rfl, by decide⟩

/-- Amended claim C7: `GetLanguageWithFallback` performs steps 1 and 3 only — for every
item, default and metrics state it returns exactly the pair that `ValidateAndSetLanguage`
applies when the first application succeeds (non-nil outbound record), it touches no
outbound record, leaves the locale-set success and failure counters unchanged, and raises
the fallback counter once per invalid field; unlike the claim, it does not increment the
validations-performed counter. -/
theorem getLanguageWithFallback_pure_variant (v : Video) (d : String) (m : Metrics)
    (w : YouTubeVideo) :
    ∃ r, ValidateAndSetLanguage (some w) (some v) d m = some r ∧
      (GetLanguageWithFallback v d m).1.1 = r.video.AppliedLanguage ∧
      (GetLanguageWithFallback v d m).1.2 = r.video.AppliedAudioLanguage ∧
      (GetLanguageWithFallback v d m).2.LanguageSetSuccess = m.LanguageSetSuccess ∧
      (GetLanguageWithFallback v d m).2.LanguageSetFailure = m.LanguageSetFailure ∧
      (GetLanguageWithFallback v d m).2.LanguageValidation = m.LanguageValidation ∧
      (GetLanguageWithFallback v d m).2.LanguageFallback = m.LanguageFallback +
        ((if IsValidLanguage (v.GetLanguage d) then 0 else 1) +
          (if IsValidLanguage (v.GetAudioLanguage d) then 0 else 1)) := by
  refine ⟨_, rfl, ?_, ?_, ?_, ?_, ?_, ?_⟩ <;>
    cases h1 : IsValidLanguage (v.GetLanguage d) <;>
      cases h2 : IsValidLanguage (v.GetAudioLanguage d) <;>
        simp [GetLanguageWithFallback, setLanguageSafely, h1, h2,
          Metrics.IncLanguageFallback, Metrics.IncLanguageValidation,
          Metrics.IncLanguageSetSuccess, Metrics.IncLanguageSetFailure]

/-- Claim C5: `CategorizeError` maps nil to nil and otherwise realises exactly the
specification's ordered first-match keyword table of (kind, retryable) pairs, with
`(unknown, false)` when no rule matches. -/
theorem categorizeError_matches_spec_table :
    CategorizeError none = none ∧
    ∀ s : String, (CategorizeError (some s)).map (fun y => (y.type, y.Retryable)) =
      some (classifyByTable s) := by
  refine ⟨rfl, fun s => ?_⟩
  simp only [CategorizeError, classifyByTable, specRules, List.find?, List.any_cons,
    List.any_nil, Bool.or_false, Bool.or_assoc]
  generalize (strContains (strToLower s) "authentication" ||
    strContains (strToLower s) "unauthorized") = c1
  generalize (strContains (strToLower s) "rate limit" ||
    strContains (strToLower s) "quota") = c2
  generalize (strContains (strToLower s) "network" ||
    (strContains (strToLower s) "timeout" || strContains (strToLower s) "connection")) = c3
  generalize (strContains (strToLower s) "invalid" ||
    strContains (strToLower s) "bad request") = c4
  generalize (strContains (strToLower s) "server error" ||
    strContains (strToLower s) "internal server") = c5
  generalize (strContains (strToLower s) "language" ||
    strContains (strToLower s) "locale") = c6
  generalize (strContains (strToLower s) "upload" ||
    strContains (strToLower s) "video") = c7
  cases c1 <;> cases c2 <;> cases c3 <;> cases c4 <;> cases c5 <;> cases c6 <;>
    cases c7 <;> rfl

/-! ## Persistence Layer

The storage package implementation (per-item save/load) is not among the provided sources
— only its tests are — so it is modelled from the specification (§4.1, §6): a structured
document tree with string scalars and ordered field lists, lower-camel-case wire names,
and a path-keyed store with overwrite-on-save semantics. -/

/-- Modelled from the spec: the on-the-wire structured document of §4.1/§6 (string
scalars, ordered named fields). -/
inductive Document where
  | str : String → Document
  | obj : List (String × Document) → Document

/-- The field names of a document object, in order. -/
def objKeys : Document → List String
  | .str _ => []
  | .obj fields => fields.map Prod.fst

/-- Lookup of a field in a document object body. -/
def getField (fields : List (String × Document)) (key : String) : Option Document :=
  fields.lookup key

/-- Lookup of a string field in a document object body. -/
def getStr (fields : List (String × Document)) (key : String) : Option String :=
  match fields.lookup key with
  | some (Document.str s) => some s
  | _ => none

/-- Modelled from the spec: serialization of the nested sponsorship record, wire names
lower-camel-case (`sponsorship` with `amount`, `emails`, `blocked`, §6). -/
def encodeSponsorship (s : Sponsorship) : Document :=
  .obj [("amount", .str s.Amount), ("emails", .str s.Emails), ("blocked", .str s.Blocked)]

/-- Modelled from the spec: deserialization of the sponsorship record. -/
def decodeSponsorship : Document → Option Sponsorship
  | .str _ => none
  | .obj fields => do
      let amount ← getStr fields "amount"
      let emails ← getStr fields "emails"
      let blocked ← getStr fields "blocked"
      pure { Amount := amount, Emails := emails, Blocked := blocked }

/-- Modelled from the spec: serialization of the full per-item document, every wire field
name lower-camel-case (`projectName`, `projectURL`, `audioLanguage`, ..., §4.1/§6). -/
def encodeVideo (v : Video) : Document :=
  .obj [("name", .str v.Name), ("category", .str v.Category), ("path", .str v.Path),
        ("projectName", .str v.ProjectName), ("projectURL", .str v.ProjectURL),
        ("sponsorship", encodeSponsorship v.Sponsorship),
        ("title", .str v.Title), ("description", .str v.Description),
        ("tags", .str v.Tags), ("tweet", .str v.Tweet),
        ("language", .str v.Language), ("audioLanguage", .str v.AudioLanguage),
        ("appliedLanguage", .str v.AppliedLanguage),
        ("appliedAudioLanguage", .str v.AppliedAudioLanguage)]

/-- Modelled from the spec: decoding of the per-item document into a Video value
(`DecodeError` collapsed to `none`). -/
def decodeVideo : Document → Option Video
  | .str _ => none
  | .obj fields => do
      let name ← getStr fields "name"
      let category ← getStr fields "category"
      let path ← getStr fields "path"
      let projectName ← getStr fields "projectName"
      let projectURL ← getStr fields "projectURL"
      let sponsorshipDoc ← getField fields "sponsorship"
      let sponsorship ← decodeSponsorship sponsorshipDoc
      let title ← getStr fields "title"
      let description ← getStr fields "description"
      let tags ← getStr fields "tags"
      let tweet ← getStr fields "tweet"
      let language ← getStr fields "language"
      let audioLanguage ← getStr fields "audioLanguage"
      let appliedLanguage ← getStr fields "appliedLanguage"
      let appliedAudioLanguage ← getStr fields "appliedAudioLanguage"
      pure { Name := name, Category := category, Path := path,
             ProjectName := projectName, ProjectURL := projectURL,
             Sponsorship := sponsorship, Title := title, Description := description,
             Tags := tags, Tweet := tweet, Language := language,
             AudioLanguage := audioLanguage, AppliedLanguage := appliedLanguage,
             AppliedAudioLanguage := appliedAudioLanguage }

/-- Modelled from the spec: `saveItem` serializes the full document and writes it to the
path, overwriting any existing content (§4.1); the file store is a path-keyed map. -/
def saveItem (v : Video) (path : String) (fs : List (String × Document)) :
    List (String × Document) :=
  (path, encodeVideo v) :: fs

/-- Modelled from the spec: `loadItem` reads the document at the path and decodes it;
`none` covers both NotFound and DecodeError (§4.1). -/
def loadItem (path : String) (fs : List (String × Document)) : Option Video :=
  (fs.lookup path).bind decodeVideo

/-- Claim C9: `saveItem` then `loadItem` at the same path restores every field, the
nested Sponsorship and both locale pairs included, and every wire field name is
lower-camel-case. -/
theorem video_save_load_roundtrip (v : Video) (path : String)
    (fs : List (String × Document)) :
    loadItem path (saveItem v path fs) = some v ∧
    objKeys (encodeVideo v) =
      ["name", "category", "path", "projectName", "projectURL", "sponsorship",
       "title", "description", "tags", "tweet", "language", "audioLanguage",
       "appliedLanguage", "appliedAudioLanguage"] ∧
    objKeys (encodeSponsorship v.Sponsorship) = ["amount", "emails", "blocked"] := by
  refine ⟨?_, rfl, rfl⟩
  show (List.lookup path ((path, encodeVideo v) :: fs)).bind decodeVideo = some v
  rw [List.lookup_cons_self]
  rfl
